import Mathlib

/-!
# Deployment configuration (`truffle-config.js`)

A shallow embedding of the module `truffle-config.js`: the statements it runs when it is
required (environment loading, the `console.log` diagnostic, the read of the signing
secret) and the object literal it exports (the `networks` table with its deferred
`provider` functions, `mocha`, `compilers`).

The two required libraries are outside the module.  `dotenv-flow` is embedded by its
documented effect on `process.env` (variables already present are kept, the others are
taken from the variable files of the selected environment); the content of the files is a
parameter.  The constructor of `@truffle/hdwallet-provider` is a parameter of every
definition that reaches it: it may return a transport or throw.

Property reads follow JavaScript: an object literal has its own properties and inherits
the members of `Object.prototype`, which are values of the runtime.
-/

namespace TruffleConfig

/-! ## Process state -/

/-- Content of `process.env`: `none` stands for JavaScript `undefined` (variable unset). -/
abbrev Env := String → Option String

/-- Options object handed to `require('dotenv-flow').config`. -/
structure DotenvOptions where
  path : String
  node_env : String
deriving DecidableEq, Repr

/-- Arguments of one evaluation of `new HDWalletProvider(mnemonic, url)`. -/
structure ProviderCall where
  mnemonic : Option String
  url : String
deriving DecidableEq, Repr

/-- State of the running process, with the observable effects recorded in order:
`env` is `process.env`; `files dir id` is the merged content of the variable files that
`dotenv-flow` finds in directory `dir` for environment `id` (nothing when there is no
file); `configCalls` are the calls of the environment loader, `stdout` the lines written
by `console.log`, `constructed` the constructor calls of the wallet provider. -/
structure Proc where
  env : Env
  files : String → String → Env
  configCalls : List DotenvOptions
  stdout : List String
  constructed : List ProviderCall

/-- A process that has not run anything yet. -/
def boot (env : Env) (files : String → String → Env) : Proc :=
  { env := env, files := files, configCalls := [], stdout := [], constructed := [] }

/-! ## Results of calls -/

/-- Error names of the specification.  No statement of `truffle-config.js` throws, so
the embedding of the module never produces one; they are declared for the statements
that mention them. -/
inductive ConfigError where
  | MissingCredentialError
  | UnknownNetworkError
deriving DecidableEq, Repr

/-- Result of a JavaScript call: a returned value, an exception thrown by the
configuration module itself, or an exception thrown inside a required library (`ε` is
the type of the library errors). -/
inductive Outcome (ε α : Type) where
  | returned (value : α)
  | raised (error : ConfigError)
  | libraryThrew (error : ε)

/-- Result of a library call seen from the caller that does not catch. -/
def Outcome.ofLibrary {ε α : Type} : Except ε α → Outcome ε α
  | .ok v => .returned v
  | .error e => .libraryThrew e

/-- Function value of the module: a zero-argument function that runs in the process and
yields a transport of type `τ`. -/
abbrev Factory (ε τ : Type) := Proc → Outcome ε τ × Proc

/-- JavaScript values occurring in the exported object and in reads on it. `builtin path`
is the value of the runtime, not defined by the module, that is reached from
`Object.prototype` by reading the property names of `path` in order (so
`builtin ["constructor"]` is the function `Object`); beyond the first name such a value
may itself be `undefined`. -/
inductive JSVal (ε τ : Type) where
  | undefined
  | str (s : String)
  | num (n : Nat)
  | bool (b : Bool)
  | fn (f : Factory ε τ)
  | obj (props : List (String × JSVal ε τ))
  | builtin (path : List String)

/-- Names of the members that every object literal inherits from `Object.prototype`: the
standard built-ins of the runtime, none added or removed. -/
def objectPrototypeKeys : List String :=
  ["constructor", "__defineGetter__", "__defineSetter__", "hasOwnProperty",
   "__lookupGetter__", "__lookupSetter__", "isPrototypeOf", "propertyIsEnumerable",
   "toString", "valueOf", "__proto__", "toLocaleString"]

/-- Property read `o[key]`. On an object literal it walks the prototype chain: the own
property when there is one, else the member inherited from `Object.prototype`, else
`undefined`. On a value of the runtime it is a value of the runtime again. The remaining
receivers are not objects of the module: a read on `undefined` throws a `TypeError` in
JavaScript and no read on a string, number, boolean or function occurs below; the
embedding gives `undefined` for them. -/
def JSVal.get {ε τ : Type} : JSVal ε τ → String → JSVal ε τ
  | .obj props, key =>
    match props.lookup key with
    | some v => v
    | none => if key ∈ objectPrototypeKeys then .builtin [key] else .undefined
  | .builtin path, key => .builtin (path ++ [key])
  | _, _ => .undefined

/-- Own property names of an object, in declaration order. -/
def JSVal.keys {ε τ : Type} : JSVal ε τ → List String
  | .obj props => props.map Prod.fst
  | _ => []

/-! ## Library calls and operators -/

/-- JavaScript `a || b` for a value `a` read from `process.env`: `undefined` and the
empty string are falsy. -/
def jsOr (a : Option String) (b : String) : String :=
  match a with
  | some s => if s = "" then b else s
  | none => b

/-- Effect of `require('dotenv-flow').config(options)`: every variable that is already
set in `process.env` keeps its value, every other one takes the value the variable files
of `options.path` give it for environment `options.node_env`. It does not throw. -/
def dotenvFlowConfig (options : DotenvOptions) (p : Proc) : Proc :=
  { p with
    env := fun key =>
      match p.env key with
      | some v => some v
      | none => p.files options.path options.node_env key
    configCalls := p.configCalls ++ [options] }

/-- Text `console.log` prints for one argument that is a string or `undefined`. -/
def display : Option String → String
  | some s => s
  | none => "undefined"

/-- Effect of `console.log(a, b, ...)`: one line, the arguments separated by a blank. -/
def consoleLog (args : List (Option String)) (p : Proc) : Proc :=
  { p with stdout := p.stdout ++ [" ".intercalate (args.map display)] }

/-- Evaluation of `new HDWalletProvider(mnemonic, url)`: the constructor `hd` of the
library is called with exactly these arguments and its result is not caught. -/
def newHDWalletProvider {ε τ : Type} (hd : Option String → String → Except ε τ)
    (mnemonic : Option String) (url : String) : Factory ε τ :=
  fun p =>
    (Outcome.ofLibrary (hd mnemonic url),
     { p with constructed := p.constructed ++ [⟨mnemonic, url⟩] })

/-! ## The module -/

/-- RPC endpoint in `networks.testnet.provider`. -/
def testnetUrl : String := "https://data-seed-prebsc-2-s3.binance.org:8545/"

/-- RPC endpoint in `networks.mainnet.provider`. -/
def mainnetUrl : String := "https://bsc-dataseed1.binance.org/"

/-- Object literal assigned to `module.exports`; `mnemonic` is the module constant the
two arrow functions close over. -/
def moduleExports {ε τ : Type} (hd : Option String → String → Except ε τ)
    (mnemonic : Option String) : JSVal ε τ :=
  .obj [
    ("networks", .obj [
      ("testnet", .obj [
        ("provider", .fn (newHDWalletProvider hd mnemonic testnetUrl)),
        ("network_id", .num 97)]),
      ("mainnet", .obj [
        ("provider", .fn (newHDWalletProvider hd mnemonic mainnetUrl)),
        ("network_id", .num 56)])]),
    ("mocha", .obj []),
    ("compilers", .obj [
      ("solc", .obj [
        ("version", .str "^0.6.0"),
        ("docker", .bool false),
        ("settings", .obj [
          ("optimizer", .obj [
            ("enabled", .bool true),
            ("runs", .num 200)]),
          ("evmVersion", .str "istanbul")])])])]

/-- Evaluation of the module `truffle-config.js` in process `p`: the environment loader
is called, the diagnostic is printed, the secret is read, the object is exported. -/
def truffleConfig {ε τ : Type} (hd : Option String → String → Except ε τ)
    (p : Proc) : Outcome ε (JSVal ε τ) × Proc :=
  let p1 := dotenvFlowConfig { path := "envs/", node_env := jsOr (p.env "NODE_ENV") "test" } p
  let p2 := consoleLog [some "env:", p1.env "NODE_ENV"] p1
  let mnemonic := p2.env "DEPLOYER_PRIVATE_KEY"
  (.returned (moduleExports hd mnemonic), p2)

/-- Process state once the module has been evaluated. -/
def loaded {ε τ : Type} (hd : Option String → String → Except ε τ) (p : Proc) : Proc :=
  (truffleConfig hd p).2

/-- Object the module exports when evaluated in process `p`. -/
def exported {ε τ : Type} (hd : Option String → String → Except ε τ) (p : Proc) : JSVal ε τ :=
  match (truffleConfig hd p).1 with
  | .returned v => v
  | _ => .undefined

/-- Network selection as the deployment tool performs it on the exported object: the
property read `networks[name]`. A property read runs no function and changes nothing. -/
def resolve {ε τ : Type} (config : JSVal ε τ) (name : String) (p : Proc) :
    Outcome ε (JSVal ε τ) × Proc :=
  (.returned ((config.get "networks").get name), p)

/-- Call `networks[name].provider()` on the exported object; `none` when that property
is not a function of the module: the call then fails inside the runtime (a `TypeError`)
and no code of the module runs. -/
def callProvider {ε τ : Type} (config : JSVal ε τ) (name : String) (p : Proc) :
    Option (Outcome ε τ × Proc) :=
  match ((config.get "networks").get name).get "provider" with
  | .fn f => some (f p)
  | _ => none

/-! ## Views and fixtures used by the statements -/

mutual
/-- Plain data of a value: every function value is replaced by `undefined`, everything
else is kept. -/
def JSVal.plain {ε τ : Type} : JSVal ε τ → JSVal ε τ
  | .fn _ => .undefined
  | .obj props => .obj (plainProps props)
  | v => v
/-- Plain data of a property list, property by property. -/
def plainProps {ε τ : Type} : List (String × JSVal ε τ) → List (String × JSVal ε τ)
  | [] => []
  | (k, v) :: rest => (k, v.plain) :: plainProps rest
end

/-- Chain identifiers the specification documents for the registered networks. -/
def documentedChainId (name : String) : Option Nat :=
  if name = "testnet" then some 97 else if name = "mainnet" then some 56 else none

/-- An environment in which no variable is set. -/
def emptyEnv : Env := fun _ => none

/-- An environment in which exactly the variable `key` is set, to `value`. -/
def envWith (key value : String) : Env := fun k => if k = key then some value else none

/-- A disk without variable files. -/
def noFiles : String → String → Env := fun _ _ _ => none

/-- A wallet constructor that accepts every credential and returns the record of its
arguments. -/
def acceptAll : Option String → String → Except String ProviderCall :=
  fun mnemonic url => .ok ⟨mnemonic, url⟩

/-- A wallet constructor that throws when the credential is absent or empty. -/
def strictWallet : Option String → String → Except String ProviderCall :=
  fun mnemonic url =>
    match mnemonic with
    | none => .error "Mnemonic invalid or undefined"
    | some s => if s = "" then .error "Mnemonic invalid or undefined" else .ok ⟨some s, url⟩

/-! ## Shared lemmas -/

/-- The module always returns its object literal, built over the secret read after the
environment loader has run. -/
theorem exported_eq {ε τ : Type} (hd : Option String → String → Except ε τ) (p : Proc) :
    exported hd p = moduleExports hd ((loaded hd p).env "DEPLOYER_PRIVATE_KEY") := rfl

/-- The `networks` property of the exported object has the two declared names. -/
theorem networks_keys {ε τ : Type} (hd : Option String → String → Except ε τ) (p : Proc) :
    ((exported hd p).get "networks").keys = ["testnet", "mainnet"] := rfl

/-- Calling the provider of `testnet` evaluates the constructor once, on the module
constant and the testnet endpoint. -/
theorem callProvider_testnet {ε τ : Type} (hd : Option String → String → Except ε τ)
    (p q : Proc) :
    callProvider (exported hd p) "testnet" q =
      some (newHDWalletProvider hd ((loaded hd p).env "DEPLOYER_PRIVATE_KEY") testnetUrl q) := rfl

/-- Calling the provider of `mainnet` evaluates the constructor once, on the module
constant and the mainnet endpoint. -/
theorem callProvider_mainnet {ε τ : Type} (hd : Option String → String → Except ε τ)
    (p q : Proc) :
    callProvider (exported hd p) "mainnet" q =
      some (newHDWalletProvider hd ((loaded hd p).env "DEPLOYER_PRIVATE_KEY") mainnetUrl q) := rfl

/-- A name other than the two declared ones has no entry in `networks`: the read yields
the member inherited from `Object.prototype` when there is one, and `undefined`
otherwise. -/
theorem networks_get_unregistered {ε τ : Type} (hd : Option String → String → Except ε τ)
    (p : Proc) (name : String) (h1 : name ≠ "testnet") (h2 : name ≠ "mainnet") :
    ((exported hd p).get "networks").get name =
      if name ∈ objectPrototypeKeys then .builtin [name] else .undefined := by
  have e1 : (name == "testnet") = false := beq_eq_false_iff_ne.mpr h1
  have e2 : (name == "mainnet") = false := beq_eq_false_iff_ne.mpr h2
  have hn : (exported hd p).get "networks" = .obj [
      ("testnet", .obj [
        ("provider", .fn (newHDWalletProvider hd ((loaded hd p).env "DEPLOYER_PRIVATE_KEY")
          testnetUrl)),
        ("network_id", .num 97)]),
      ("mainnet", .obj [
        ("provider", .fn (newHDWalletProvider hd ((loaded hd p).env "DEPLOYER_PRIVATE_KEY")
          mainnetUrl)),
        ("network_id", .num 56)])] := rfl
  rw [hn]
  simp only [JSVal.get, List.lookup, e1, e2]

/-- A name other than the two declared ones has no provider to call. -/
theorem callProvider_unregistered {ε τ : Type} (hd : Option String → String → Except ε τ)
    (p q : Proc) (name : String) (h1 : name ≠ "testnet") (h2 : name ≠ "mainnet") :
    callProvider (exported hd p) name q = none := by
  unfold callProvider
  rw [networks_get_unregistered hd p name h1 h2]
  by_cases hn : name ∈ objectPrototypeKeys
  · rw [if_pos hn]
    rfl
  · rw [if_neg hn]
    rfl

/-- The two endpoints are different addresses. -/
theorem testnetUrl_ne_mainnetUrl : testnetUrl ≠ mainnetUrl := by decide

/-! ## Network registry -/

/-- C1: the exported network registry has exactly the two entries `testnet` and
`mainnet`; for every registered name `resolve` returns, without any effect, an entry
whose `network_id` is the documented chain identifier (97 for testnet, 56 for mainnet);
the names are distinct and distinct names have distinct identifiers. -/
theorem registry_resolves_documented_chain_ids {ε τ : Type}
    (hd : Option String → String → Except ε τ) (p : Proc) :
    ((exported hd p).get "networks").keys = ["testnet", "mainnet"] ∧
    (∀ name ∈ ((exported hd p).get "networks").keys, ∀ q : Proc,
      ∃ profile id, resolve (exported hd p) name q = (.returned profile, q) ∧
        profile.get "network_id" = .num id ∧ documentedChainId name = some id) ∧
    documentedChainId "testnet" = some 97 ∧ documentedChainId "mainnet" = some 56 ∧
    ((exported hd p).get "networks").keys.Nodup ∧
    (∀ a ∈ ((exported hd p).get "networks").keys,
      ∀ b ∈ ((exported hd p).get "networks").keys,
        (((exported hd p).get "networks").get a).get "network_id" =
          (((exported hd p).get "networks").get b).get "network_id" → a = b) := by
  refine ⟨rfl, ?_, rfl, rfl, ?_, ?_⟩
  · intro name hname q
    rw [networks_keys] at hname
    simp only [List.mem_cons, List.mem_singleton, List.not_mem_nil, or_false] at hname
    rcases hname with h | h
    · subst h
      exact ⟨_, 97, rfl, rfl, rfl⟩
    · subst h
      exact ⟨_, 56, rfl, rfl, rfl⟩
  · rw [networks_keys]
    decide
  · intro a ha b hb
    rw [networks_keys] at ha hb
    simp only [List.mem_cons, List.mem_singleton, List.not_mem_nil, or_false] at ha hb
    rcases ha with h | h <;> rcases hb with k | k <;> subst h <;> subst k <;> intro hid
    · rfl
    · exact absurd hid (by simp [exported_eq, moduleExports, JSVal.get, List.lookup])
    · exact absurd hid (by simp [exported_eq, moduleExports, JSVal.get, List.lookup])
    · rfl

/-! ## Deferred transport factories -/

/-- C2: when the signing secret read by the module is set to `s`, calling the deferred
factory of `testnet` evaluates `new HDWalletProvider(s, testnetUrl)` and yields its
result, calling the one of `mainnet` evaluates `new HDWalletProvider(s, mainnetUrl)` and
yields its result (the transport the constructor returns is the transport the factory
returns), and the two endpoint addresses differ. -/
theorem provider_binds_secret_to_endpoint {ε τ : Type}
    (hd : Option String → String → Except ε τ) (p q : Proc) (s : String)
    (hs : (loaded hd p).env "DEPLOYER_PRIVATE_KEY" = some s) :
    callProvider (exported hd p) "testnet" q =
      some (Outcome.ofLibrary (hd (some s) testnetUrl),
        { q with constructed := q.constructed ++ [⟨some s, testnetUrl⟩] }) ∧
    callProvider (exported hd p) "mainnet" q =
      some (Outcome.ofLibrary (hd (some s) mainnetUrl),
        { q with constructed := q.constructed ++ [⟨some s, mainnetUrl⟩] }) ∧
    (∀ t, hd (some s) testnetUrl = .ok t →
      (callProvider (exported hd p) "testnet" q).map Prod.fst = some (.returned t)) ∧
    (∀ t, hd (some s) mainnetUrl = .ok t →
      (callProvider (exported hd p) "mainnet" q).map Prod.fst = some (.returned t)) ∧
    testnetUrl ≠ mainnetUrl := by
  rw [callProvider_testnet, callProvider_mainnet, hs]
  refine ⟨rfl, rfl, ?_, ?_, testnetUrl_ne_mainnetUrl⟩
  · intro t ht
    simp [newHDWalletProvider, ht, Outcome.ofLibrary]
  · intro t ht
    simp [newHDWalletProvider, ht, Outcome.ofLibrary]

/-- Witness of C2: a process whose shell sets the secret to `"0x5ec2e7"`, a wallet
constructor that accepts it. -/
theorem provider_binds_secret_to_endpoint_witness :
    (loaded acceptAll (boot (envWith "DEPLOYER_PRIVATE_KEY" "0x5ec2e7") noFiles)).env
        "DEPLOYER_PRIVATE_KEY" = some "0x5ec2e7" ∧
    (callProvider (exported acceptAll (boot (envWith "DEPLOYER_PRIVATE_KEY" "0x5ec2e7") noFiles))
        "testnet" (loaded acceptAll (boot (envWith "DEPLOYER_PRIVATE_KEY" "0x5ec2e7") noFiles))).map
          Prod.fst = some (.returned ⟨some "0x5ec2e7", testnetUrl⟩) ∧
    (callProvider (exported acceptAll (boot (envWith "DEPLOYER_PRIVATE_KEY" "0x5ec2e7") noFiles))
        "mainnet" (loaded acceptAll (boot (envWith "DEPLOYER_PRIVATE_KEY" "0x5ec2e7") noFiles))).map
          Prod.fst = some (.returned ⟨some "0x5ec2e7", mainnetUrl⟩) :=
  ⟨rfl,
   (provider_binds_secret_to_endpoint acceptAll
      (boot (envWith "DEPLOYER_PRIVATE_KEY" "0x5ec2e7") noFiles)
      (loaded acceptAll (boot (envWith "DEPLOYER_PRIVATE_KEY" "0x5ec2e7") noFiles))
      "0x5ec2e7" rfl).2.2.1 _ rfl,
   (provider_binds_secret_to_endpoint acceptAll
      (boot (envWith "DEPLOYER_PRIVATE_KEY" "0x5ec2e7") noFiles)
      (loaded acceptAll (boot (envWith "DEPLOYER_PRIVATE_KEY" "0x5ec2e7") noFiles))
      "0x5ec2e7" rfl).2.2.2.1 _ rfl⟩

/-- C3: in a fresh process, evaluating the module constructs nothing, and then calling
only the factory of `testnet` evaluates the wallet constructor exactly once, on the
secret of the module and the testnet endpoint, and never on the mainnet endpoint; what
the call yields is the result of that one evaluation, so the transport the constructor
returns is the transport of `testnet`; symmetrically for `mainnet`. -/
theorem provider_call_constructs_only_selected {ε τ : Type}
    (hd : Option String → String → Except ε τ) (env : Env) (files : String → String → Env) :
    (loaded hd (boot env files)).constructed = [] ∧
    (∃ r, callProvider (exported hd (boot env files)) "testnet" (loaded hd (boot env files))
        = some r ∧
      r.1 = Outcome.ofLibrary
        (hd ((loaded hd (boot env files)).env "DEPLOYER_PRIVATE_KEY") testnetUrl) ∧
      (∀ t, hd ((loaded hd (boot env files)).env "DEPLOYER_PRIVATE_KEY") testnetUrl = .ok t →
        r.1 = .returned t) ∧
      r.2.constructed =
        [⟨(loaded hd (boot env files)).env "DEPLOYER_PRIVATE_KEY", testnetUrl⟩] ∧
      r.2.constructed.length = 1 ∧
      ∀ c ∈ r.2.constructed, c.url = testnetUrl ∧ c.url ≠ mainnetUrl) ∧
    (∃ r, callProvider (exported hd (boot env files)) "mainnet" (loaded hd (boot env files))
        = some r ∧
      r.1 = Outcome.ofLibrary
        (hd ((loaded hd (boot env files)).env "DEPLOYER_PRIVATE_KEY") mainnetUrl) ∧
      (∀ t, hd ((loaded hd (boot env files)).env "DEPLOYER_PRIVATE_KEY") mainnetUrl = .ok t →
        r.1 = .returned t) ∧
      r.2.constructed =
        [⟨(loaded hd (boot env files)).env "DEPLOYER_PRIVATE_KEY", mainnetUrl⟩] ∧
      r.2.constructed.length = 1 ∧
      ∀ c ∈ r.2.constructed, c.url = mainnetUrl ∧ c.url ≠ testnetUrl) := by
  refine ⟨rfl, ⟨_, callProvider_testnet hd _ _, rfl, ?_, rfl, rfl, ?_⟩,
    ⟨_, callProvider_mainnet hd _ _, rfl, ?_, rfl, rfl, ?_⟩⟩
  · intro t ht
    simp [newHDWalletProvider, ht, Outcome.ofLibrary]
  · intro c hc
    have hc2 : c = ⟨(loaded hd (boot env files)).env "DEPLOYER_PRIVATE_KEY", testnetUrl⟩ := by
      simpa [newHDWalletProvider, loaded, truffleConfig, consoleLog, dotenvFlowConfig, boot]
        using hc
    subst hc2
    exact ⟨rfl, testnetUrl_ne_mainnetUrl⟩
  · intro t ht
    simp [newHDWalletProvider, ht, Outcome.ofLibrary]
  · intro c hc
    have hc2 : c = ⟨(loaded hd (boot env files)).env "DEPLOYER_PRIVATE_KEY", mainnetUrl⟩ := by
      simpa [newHDWalletProvider, loaded, truffleConfig, consoleLog, dotenvFlowConfig, boot]
        using hc
    subst hc2
    exact ⟨rfl, fun h => testnetUrl_ne_mainnetUrl h.symm⟩

/-! ## Absent credential -/

/-- C4, as stated, fails: in a fresh process with no variable set and no variable file
the secret is unset, and calling the factory of `testnet` is not an error
`MissingCredentialError` raised by the module. With a wallet constructor that accepts
every credential it returns the transport built from the absent credential; with one
that refuses an absent credential the exception is the one thrown inside the library. -/
theorem absent_secret_not_raised_by_module :
    (loaded acceptAll (boot emptyEnv noFiles)).env "DEPLOYER_PRIVATE_KEY" = none ∧
    (callProvider (exported acceptAll (boot emptyEnv noFiles)) "testnet"
        (loaded acceptAll (boot emptyEnv noFiles))).map Prod.fst =
      some (.returned ⟨none, testnetUrl⟩) ∧
    (callProvider (exported acceptAll (boot emptyEnv noFiles)) "testnet"
        (loaded acceptAll (boot emptyEnv noFiles))).map Prod.fst ≠
      some (.raised .MissingCredentialError) ∧
    (loaded strictWallet (boot emptyEnv noFiles)).env "DEPLOYER_PRIVATE_KEY" = none ∧
    (callProvider (exported strictWallet (boot emptyEnv noFiles)) "testnet"
        (loaded strictWallet (boot emptyEnv noFiles))).map Prod.fst =
      some (.libraryThrew "Mnemonic invalid or undefined") ∧
    (callProvider (exported strictWallet (boot emptyEnv noFiles)) "testnet"
        (loaded strictWallet (boot emptyEnv noFiles))).map Prod.fst ≠
      some (.raised .MissingCredentialError) := by
  refine ⟨rfl, rfl, ?_, rfl, rfl, ?_⟩
  · rw [callProvider_testnet]
    simp [newHDWalletProvider, acceptAll, Outcome.ofLibrary]
  · rw [callProvider_testnet]
    simp [newHDWalletProvider, strictWallet, Outcome.ofLibrary, loaded, truffleConfig,
      consoleLog, dotenvFlowConfig, boot, emptyEnv, noFiles]

/-- C4 as amended: when the signing secret read by the module is unset, calling the
deferred factory of `testnet` (likewise of `mainnet`) makes no presence check: it
evaluates the wallet constructor once, on the absent credential and the endpoint of that
network, and its result, transport or exception, is the result of that constructor; the
module raises no error of its own. -/
theorem absent_secret_passed_to_constructor {ε τ : Type}
    (hd : Option String → String → Except ε τ) (p q : Proc)
    (hs : (loaded hd p).env "DEPLOYER_PRIVATE_KEY" = none) :
    callProvider (exported hd p) "testnet" q =
      some (Outcome.ofLibrary (hd none testnetUrl),
        { q with constructed := q.constructed ++ [⟨none, testnetUrl⟩] }) ∧
    callProvider (exported hd p) "mainnet" q =
      some (Outcome.ofLibrary (hd none mainnetUrl),
        { q with constructed := q.constructed ++ [⟨none, mainnetUrl⟩] }) ∧
    (∀ e, (callProvider (exported hd p) "testnet" q).map Prod.fst ≠ some (.raised e)) ∧
    (∀ e, (callProvider (exported hd p) "mainnet" q).map Prod.fst ≠ some (.raised e)) := by
  rw [callProvider_testnet, callProvider_mainnet, hs]
  refine ⟨rfl, rfl, ?_, ?_⟩
  · intro e
    cases h : hd none testnetUrl <;> simp [newHDWalletProvider, h, Outcome.ofLibrary]
  · intro e
    cases h : hd none mainnetUrl <;> simp [newHDWalletProvider, h, Outcome.ofLibrary]

/-- Witness of the amended C4: the fresh process with no variable and no file, and the
wallet constructor that refuses an absent credential. -/
theorem absent_secret_passed_to_constructor_witness :
    (loaded strictWallet (boot emptyEnv noFiles)).env "DEPLOYER_PRIVATE_KEY" = none ∧
    callProvider (exported strictWallet (boot emptyEnv noFiles)) "mainnet"
        (loaded strictWallet (boot emptyEnv noFiles)) =
      some (Outcome.ofLibrary (strictWallet none mainnetUrl),
        { loaded strictWallet (boot emptyEnv noFiles) with
          constructed :=
            (loaded strictWallet (boot emptyEnv noFiles)).constructed ++ [⟨none, mainnetUrl⟩] }) :=
  ⟨rfl,
   (absent_secret_passed_to_constructor strictWallet (boot emptyEnv noFiles)
      (loaded strictWallet (boot emptyEnv noFiles)) rfl).2.1⟩

/-! ## Unregistered names -/

/-- C5, as stated, fails: reading the entry of the unregistered name `"unknown"` returns
`undefined`, and reading the one of the unregistered name `"constructor"` returns the
member inherited from `Object.prototype`; neither is an error `UnknownNetworkError`. -/
theorem unknown_name_not_raised :
    (resolve (exported acceptAll (boot emptyEnv noFiles)) "unknown"
        (loaded acceptAll (boot emptyEnv noFiles))).1 = .returned .undefined ∧
    (resolve (exported acceptAll (boot emptyEnv noFiles)) "unknown"
        (loaded acceptAll (boot emptyEnv noFiles))).1 ≠ .raised .UnknownNetworkError ∧
    (resolve (exported acceptAll (boot emptyEnv noFiles)) "constructor"
        (loaded acceptAll (boot emptyEnv noFiles))).1 = .returned (.builtin ["constructor"]) ∧
    (resolve (exported acceptAll (boot emptyEnv noFiles)) "constructor"
        (loaded acceptAll (boot emptyEnv noFiles))).1 ≠ .raised .UnknownNetworkError := by
  refine ⟨rfl, ?_, rfl, ?_⟩
  · simp [resolve]
  · simp [resolve]

/-- C5 as amended: for every name other than `testnet` and `mainnet`, `resolve`, the read
`networks[name]`, raises no error and runs nothing (the process state is unchanged, so
no secret is read and no transport constructed); what it returns is no network entry:
it is `undefined`, or, when the name is one every object inherits from
`Object.prototype`, that inherited member; no registered network is substituted, the
name is not a key of the registry and it has no factory to call. -/
theorem unregistered_name_has_no_entry {ε τ : Type}
    (hd : Option String → String → Except ε τ) (p q : Proc) (name : String)
    (h1 : name ≠ "testnet") (h2 : name ≠ "mainnet") :
    (∃ v, resolve (exported hd p) name q = (.returned v, q) ∧
      (name ∉ objectPrototypeKeys → v = .undefined) ∧
      (name ∈ objectPrototypeKeys → v = .builtin [name]) ∧
      (∀ registered ∈ ((exported hd p).get "networks").keys,
        v ≠ ((exported hd p).get "networks").get registered)) ∧
    (∀ e, (resolve (exported hd p) name q).1 ≠ .raised e) ∧
    callProvider (exported hd p) name q = none ∧
    name ∉ ((exported hd p).get "networks").keys := by
  refine ⟨⟨_, rfl, ?_, ?_, ?_⟩, ?_, callProvider_unregistered hd p q name h1 h2, ?_⟩
  · intro hn
    rw [networks_get_unregistered hd p name h1 h2, if_neg hn]
  · intro hn
    rw [networks_get_unregistered hd p name h1 h2, if_pos hn]
  · intro registered hreg
    rw [networks_keys] at hreg
    simp only [List.mem_cons, List.mem_singleton, List.not_mem_nil, or_false] at hreg
    rw [networks_get_unregistered hd p name h1 h2]
    rcases hreg with h | h <;> subst h <;> split <;>
      simp [exported_eq, moduleExports, JSVal.get, List.lookup]
  · intro e
    simp [resolve]
  · rw [networks_keys]
    simp [h1, h2]

/-- Witness of the amended C5: the name `"unknown"`, which nothing defines, and the name
`"constructor"`, which objects inherit. -/
theorem unregistered_name_has_no_entry_witness :
    "unknown" ≠ "testnet" ∧ "unknown" ≠ "mainnet" ∧
    callProvider (exported acceptAll (boot emptyEnv noFiles)) "unknown"
      (loaded acceptAll (boot emptyEnv noFiles)) = none ∧
    "constructor" ≠ "testnet" ∧ "constructor" ≠ "mainnet" ∧
    callProvider (exported acceptAll (boot emptyEnv noFiles)) "constructor"
      (loaded acceptAll (boot emptyEnv noFiles)) = none :=
  ⟨by decide, by decide,
   (unregistered_name_has_no_entry acceptAll (boot emptyEnv noFiles)
      (loaded acceptAll (boot emptyEnv noFiles)) "unknown" (by decide) (by decide)).2.2.1,
   by decide, by decide,
   (unregistered_name_has_no_entry acceptAll (boot emptyEnv noFiles)
      (loaded acceptAll (boot emptyEnv noFiles)) "constructor" (by decide) (by decide)).2.2.1⟩

/-! ## Assembly -/

/-- C6: in every process state, whether the signing secret is set or not, evaluating the
module succeeds: it returns an object whose parts are `networks` (with the two entries),
`mocha` (the test settings) and `compilers` (the compiler profile); during the evaluation
no wallet constructor is evaluated and no error is raised. -/
theorem assembly_succeeds_and_is_lazy {ε τ : Type}
    (hd : Option String → String → Except ε τ) (p : Proc) :
    (∃ config, truffleConfig hd p = (.returned config, loaded hd p) ∧
      config = exported hd p ∧
      config.keys = ["networks", "mocha", "compilers"] ∧
      (config.get "networks").keys = ["testnet", "mainnet"] ∧
      config.get "mocha" = .obj [] ∧
      (config.get "compilers").keys = ["solc"]) ∧
    (loaded hd p).constructed = p.constructed ∧
    (∀ env files, (loaded hd (boot env files)).constructed = []) ∧
    (∀ e, (truffleConfig hd p).1 ≠ .raised e) ∧
    (∀ e, (truffleConfig hd p).1 ≠ .libraryThrew e) := by
  refine ⟨⟨_, rfl, rfl, rfl, rfl, rfl, rfl⟩, rfl, fun _ _ => rfl, ?_, ?_⟩
  · intro e
    simp [truffleConfig]
  · intro e
    simp [truffleConfig]

/-! ## Compiler profile -/

/-- C7: the `compilers` part of the exported object is one constant: in every process
state, for every wallet constructor, and when the module is evaluated again after a
first evaluation, it is the profile with version `"^0.6.0"`, docker off, optimizer
enabled with 200 runs and EVM version `"istanbul"`; every network entry consists of a
provider and a network identifier only, so none carries compiler settings. -/
theorem compiler_profile_is_constant {ε τ : Type}
    (hd : Option String → String → Except ε τ) (p p2 : Proc) :
    (exported hd p).get "compilers" =
      .obj [("solc", .obj [
        ("version", .str "^0.6.0"),
        ("docker", .bool false),
        ("settings", .obj [
          ("optimizer", .obj [("enabled", .bool true), ("runs", .num 200)]),
          ("evmVersion", .str "istanbul")])])] ∧
    (exported hd p2).get "compilers" = (exported hd p).get "compilers" ∧
    (exported hd (loaded hd p)).get "compilers" = (exported hd p).get "compilers" ∧
    (((exported hd p).get "compilers").get "solc").get "version" = .str "^0.6.0" ∧
    (((exported hd p).get "compilers").get "solc").get "docker" = .bool false ∧
    (((((exported hd p).get "compilers").get "solc").get "settings").get "optimizer").get
      "enabled" = .bool true ∧
    (((((exported hd p).get "compilers").get "solc").get "settings").get "optimizer").get
      "runs" = .num 200 ∧
    ((((exported hd p).get "compilers").get "solc").get "settings").get "evmVersion" =
      .str "istanbul" ∧
    (∀ name ∈ ((exported hd p).get "networks").keys,
      (((exported hd p).get "networks").get name).keys = ["provider", "network_id"]) := by
  refine ⟨rfl, rfl, rfl, rfl, rfl, rfl, rfl, rfl, ?_⟩
  intro name hname
  rw [networks_keys] at hname
  simp only [List.mem_cons, List.mem_singleton, List.not_mem_nil, or_false] at hname
  rcases hname with h | h <;> subst h <;> rfl

/-! ## Confidentiality of the credential -/

/-- C8: two fresh processes whose shell environments and variable files agree on every
variable other than `DEPLOYER_PRIVATE_KEY` print the same diagnostic lines, call the
environment loader with the same options, and export objects with the same plain data
(the same names, network identifiers, test settings and compiler profile: everything but
the function values); calling a factory prints nothing. The secret reaches only the
wallet constructor evaluated by a factory that is called. -/
theorem secret_only_reaches_the_transport {ε τ : Type}
    (hd : Option String → String → Except ε τ) (env1 env2 : Env)
    (files1 files2 : String → String → Env)
    (henv : ∀ k, k ≠ "DEPLOYER_PRIVATE_KEY" → env1 k = env2 k)
    (hfiles : ∀ d n k, k ≠ "DEPLOYER_PRIVATE_KEY" → files1 d n k = files2 d n k) :
    (loaded hd (boot env1 files1)).stdout = (loaded hd (boot env2 files2)).stdout ∧
    (loaded hd (boot env1 files1)).configCalls = (loaded hd (boot env2 files2)).configCalls ∧
    (loaded hd (boot env1 files1)).constructed = (loaded hd (boot env2 files2)).constructed ∧
    (exported hd (boot env1 files1)).plain = (exported hd (boot env2 files2)).plain ∧
    ((exported hd (boot env1 files1)).get "networks").keys =
      ((exported hd (boot env2 files2)).get "networks").keys ∧
    (∀ name, (((exported hd (boot env1 files1)).get "networks").get name).get "network_id" =
      (((exported hd (boot env2 files2)).get "networks").get name).get "network_id") ∧
    (exported hd (boot env1 files1)).get "mocha" = (exported hd (boot env2 files2)).get "mocha" ∧
    (exported hd (boot env1 files1)).get "compilers" =
      (exported hd (boot env2 files2)).get "compilers" ∧
    (∀ name q r, callProvider (exported hd (boot env1 files1)) name q = some r →
      r.2.stdout = q.stdout) := by
  have hne : ("NODE_ENV" : String) ≠ "DEPLOYER_PRIVATE_KEY" := by decide
  have hnode : env1 "NODE_ENV" = env2 "NODE_ENV" := henv _ hne
  have hfile : ∀ d n, files1 d n "NODE_ENV" = files2 d n "NODE_ENV" := fun d n => hfiles d n _ hne
  refine ⟨?_, ?_, rfl, ?_, rfl, ?_, rfl, rfl, ?_⟩
  · simp [loaded, truffleConfig, consoleLog, dotenvFlowConfig, boot, hnode, hfile]
  · simp [loaded, truffleConfig, consoleLog, dotenvFlowConfig, boot, hnode]
  · simp [exported_eq, moduleExports, JSVal.plain, plainProps]
  · intro name
    by_cases h1 : name = "testnet"
    · subst h1
      rfl
    · by_cases h2 : name = "mainnet"
      · subst h2
        rfl
      · rw [networks_get_unregistered hd _ name h1 h2, networks_get_unregistered hd _ name h1 h2]
  · intro name q r hr
    by_cases h1 : name = "testnet"
    · subst h1
      rw [callProvider_testnet] at hr
      cases hr
      rfl
    · by_cases h2 : name = "mainnet"
      · subst h2
        rw [callProvider_mainnet] at hr
        cases hr
        rfl
      · rw [callProvider_unregistered hd _ q name h1 h2] at hr
        cases hr

/-- Witness of C8: two shells that set the secret to different values and nothing else,
no variable file. -/
theorem secret_only_reaches_the_transport_witness :
    envWith "DEPLOYER_PRIVATE_KEY" "0x5ec2e7" "DEPLOYER_PRIVATE_KEY" ≠
      envWith "DEPLOYER_PRIVATE_KEY" "0x0ddba11" "DEPLOYER_PRIVATE_KEY" ∧
    (loaded acceptAll (boot (envWith "DEPLOYER_PRIVATE_KEY" "0x5ec2e7") noFiles)).stdout =
      (loaded acceptAll (boot (envWith "DEPLOYER_PRIVATE_KEY" "0x0ddba11") noFiles)).stdout ∧
    (exported acceptAll (boot (envWith "DEPLOYER_PRIVATE_KEY" "0x5ec2e7") noFiles)).plain =
      (exported acceptAll (boot (envWith "DEPLOYER_PRIVATE_KEY" "0x0ddba11") noFiles)).plain := by
  have h := secret_only_reaches_the_transport acceptAll
    (envWith "DEPLOYER_PRIVATE_KEY" "0x5ec2e7") (envWith "DEPLOYER_PRIVATE_KEY" "0x0ddba11")
    noFiles noFiles (fun k hk => by simp [envWith, hk]) (fun _ _ _ _ => rfl)
  exact ⟨by decide, h.1, h.2.2.2.1⟩

/-! ## Environment identifier and diagnostic -/

/-- C9, as stated, fails: when `NODE_ENV` is set to the empty string, the identifier
handed to the environment loader is `"test"`, not the value of `NODE_ENV`. -/
theorem empty_node_env_falls_back :
    envWith "NODE_ENV" "" "NODE_ENV" = some "" ∧
    (loaded acceptAll (boot (envWith "NODE_ENV" "") noFiles)).configCalls =
      [{ path := "envs/", node_env := "test" }] ∧
    (loaded acceptAll (boot (envWith "NODE_ENV" "") noFiles)).configCalls ≠
      [{ path := "envs/", node_env := "" }] := by
  refine ⟨rfl, rfl, ?_⟩
  decide

/-- C9 as amended: the environment loader is called once, with base directory `"envs/"`
and with the identifier derived from `NODE_ENV`: its value when `NODE_ENV` is set to a
non-empty string, and `"test"` when `NODE_ENV` is unset or set to the empty string. -/
theorem loader_identifier_from_node_env {ε τ : Type}
    (hd : Option String → String → Except ε τ) (env : Env) (files : String → String → Env) :
    (∃ ident, (loaded hd (boot env files)).configCalls = [{ path := "envs/", node_env := ident }]) ∧
    (∀ v, env "NODE_ENV" = some v → v ≠ "" →
      (loaded hd (boot env files)).configCalls = [{ path := "envs/", node_env := v }]) ∧
    (env "NODE_ENV" = none ∨ env "NODE_ENV" = some "" →
      (loaded hd (boot env files)).configCalls = [{ path := "envs/", node_env := "test" }]) := by
  refine ⟨⟨_, rfl⟩, ?_, ?_⟩
  · intro v hv hne
    simp [loaded, truffleConfig, consoleLog, dotenvFlowConfig, boot, jsOr, hv, hne]
  · intro h
    rcases h with h | h <;>
      simp [loaded, truffleConfig, consoleLog, dotenvFlowConfig, boot, jsOr, h]

/-- Witness of the amended C9: `NODE_ENV` set to `"production"`, and `NODE_ENV` unset. -/
theorem loader_identifier_from_node_env_witness :
    (loaded acceptAll (boot (envWith "NODE_ENV" "production") noFiles)).configCalls =
      [{ path := "envs/", node_env := "production" }] ∧
    (loaded acceptAll (boot emptyEnv noFiles)).configCalls =
      [{ path := "envs/", node_env := "test" }] :=
  ⟨(loader_identifier_from_node_env acceptAll (envWith "NODE_ENV" "production") noFiles).2.1
      "production" rfl (by decide),
   (loader_identifier_from_node_env acceptAll emptyEnv noFiles).2.2 (Or.inl rfl)⟩

/-- C10 fails on the code: in a fresh process where `NODE_ENV` is unset and no variable
file defines it, the environment loader is called with the identifier `"test"` and the
line printed is `env: undefined`. -/
theorem diagnostic_prints_raw_node_env :
    emptyEnv "NODE_ENV" = none ∧
    (loaded acceptAll (boot emptyEnv noFiles)).configCalls =
      [{ path := "envs/", node_env := "test" }] ∧
    (loaded acceptAll (boot emptyEnv noFiles)).stdout = ["env: undefined"] ∧
    (loaded acceptAll (boot emptyEnv noFiles)).stdout ≠ ["env: test"] := by
  refine ⟨rfl, rfl, rfl, ?_⟩
  decide

end TruffleConfig
